import Mathlib

/-!
Verification development for the Streamlit weather dashboard `app.py`
(Open-Meteo, four Saudi cities).  The script is embedded shallowly:

* JSON response bodies are modelled by the inductive `Json`; numbers are
  rationals (the API serves decimal numerals) and timestamps are kept as
  their ISO-8601 strings, whose lexicographic order coincides with
  chronological order for the API's fixed-width format.
* `fetch_city_hourly` is the pure counterpart of the cached fetch helper:
  it receives the network as a function `Request → Response`, performs the
  `raise_for_status` check, the `data.get("hourly", {})` lookup, the
  truthiness test, the four keyed lookups, and the DataFrame construction
  from the four parallel arrays.  Exceptions become the `FetchResult.err`
  constructor.  `FetchErr.frameError` stands for the pandas/`to_datetime`
  errors raised when the arrays are ragged or ill-typed; the embedding
  builds rows only from string timestamps and numeric measurements, which
  is the shape the API delivers.
* `st.cache_data(ttl=300)` is modelled by `cachedFetch` over an explicit
  cache store, and `fetch_city_hourly.clear()` by `clearCache`.
* The top-level script (widget reads, fetch loop, KPIs, groupby summary,
  chart calls, detail view) is `runScript`, returning an `Outcome` that
  records which branch of the script's early-exit logic was taken.
-/

/-- JSON values as delivered by the Open-Meteo endpoint.  Objects are
association lists in document order. -/
inductive Json where
  | null
  | bool (b : Bool)
  | num (q : ℚ)
  | str (s : String)
  | arr (xs : List Json)
  | obj (kvs : List (String × Json))

/-- Dictionary lookup, modelling Python's `dict.get` /  `dict[...]` access
on a JSON object.  On a non-object it returns `none` (the script only ever
indexes objects on the reachable paths). -/
def Json.get (j : Json) (k : String) : Option Json :=
  match j with
  | .obj kvs => (kvs.find? (fun p => decide (p.1 = k))).map Prod.snd
  | _ => none

/-- Python truthiness of a JSON value, as used by `if not hourly:`. -/
def Json.truthy : Json → Bool
  | .null => false
  | .bool b => b
  | .num q => decide (q ≠ 0)
  | .str s => !s.isEmpty
  | .arr xs => !xs.isEmpty
  | .obj kvs => !kvs.isEmpty

/-- One row of the per-city DataFrame built by `fetch_city_hourly`.  The
fields are exactly the five columns `city`, `time`, `temp`, `windspeed`,
`winddirection`.  `time` keeps the ISO-8601 string produced by the API;
`pd.to_datetime` is order- and value-faithful on it. -/
structure Row where
  city : String
  time : String
  temp : ℚ
  windspeed : ℚ
  winddirection : ℚ
deriving DecidableEq

/-- The exceptions `fetch_city_hourly` can raise: `requests` HTTP errors
from `raise_for_status`, `KeyError` from indexing the `hourly` dict, and
pandas construction errors (ragged or unparsable arrays). -/
inductive FetchErr where
  | httpError (status : Nat)
  | keyError (k : String)
  | frameError
deriving DecidableEq

/-- Result of one call to `fetch_city_hourly`: a returned DataFrame or a
raised exception. -/
inductive FetchResult where
  | ok (rows : List Row)
  | err (e : FetchErr)
deriving DecidableEq

/-- The request URL of `fetch_city_hourly`, kept structured: the base URL
is constant, so a request is determined by its query parameters. -/
structure Request where
  latitude : ℚ
  longitude : ℚ
  hourly : List String
  past_days : Nat
  forecast_days : Nat
  timezone : String
deriving DecidableEq

/-- An HTTP response: status code plus decoded JSON body. -/
structure Response where
  status : Nat
  body : Json

/-- The URL built inside `fetch_city_hourly` (app.py lines 64-70). -/
def buildRequest (lat lon : ℚ) (days_back : Nat) : Request :=
  { latitude := lat
    longitude := lon
    hourly := ["temperature_2m", "windspeed_10m", "winddirection_10m"]
    past_days := days_back
    forecast_days := 1
    timezone := "auto" }

/-- Zip the four parallel, well-typed columns into rows (the DataFrame
constructor on dict-of-equal-length-arrays). -/
def mkRows (c : String) : List String → List ℚ → List ℚ → List ℚ → List Row
  | t :: ts, x :: xs, y :: ys, z :: zs =>
      { city := c, time := t, temp := x, windspeed := y, winddirection := z }
        :: mkRows c ts xs ys zs
  | _, _, _, _ => []

/-- Row construction from raw JSON columns: succeeds only when the four
arrays have equal length, timestamps are strings and measurements are
numbers; otherwise the pandas layer raises (`FetchErr.frameError`). -/
def rowsAux (c : String) : List Json → List Json → List Json → List Json → Option (List Row)
  | [], [], [], [] => some []
  | .str t :: ts, .num x :: xs, .num y :: ys, .num z :: zs =>
      (rowsAux c ts xs ys zs).map
        (fun rs => { city := c, time := t, temp := x, windspeed := y, winddirection := z } :: rs)
  | _, _, _, _ => none

/-- `pd.DataFrame({...})` over the four columns pulled out of `hourly`
(app.py lines 85-92), including the `pd.to_datetime` parse of `time`. -/
def buildFrame (c : String) (times temps winds winddirs : Json) : FetchResult :=
  match times, temps, winds, winddirs with
  | .arr ts, .arr xs, .arr ys, .arr zs =>
      match rowsAux c ts xs ys zs with
      | some rows => .ok rows
      | none => .err .frameError
  | _, _, _, _ => .err .frameError

/-- Response handling inside `fetch_city_hourly` (app.py lines 72-92):
`raise_for_status` (which raises exactly for status codes in [400, 600)),
`data.get("hourly", {})`, the truthiness early return, the four keyed
array lookups, and the DataFrame construction. -/
def handleResponse (city_name : String) (resp : Response) : FetchResult :=
  if 400 ≤ resp.status ∧ resp.status < 600 then .err (.httpError resp.status)
  else
    let hourly := (resp.body.get "hourly").getD (Json.obj [])
    if hourly.truthy = false then .ok []
    else
      match hourly.get "time" with
      | none => .err (.keyError "time")
      | some times =>
        match hourly.get "temperature_2m" with
        | none => .err (.keyError "temperature_2m")
        | some temps =>
          match hourly.get "windspeed_10m" with
          | none => .err (.keyError "windspeed_10m")
          | some winds =>
            match hourly.get "winddirection_10m" with
            | none => .err (.keyError "winddirection_10m")
            | some winddirs => buildFrame city_name times temps winds winddirs

/-- The body of `fetch_city_hourly` (app.py lines 58-92), with the network
abstracted as `net : Request → Response`.  Returns the request it issued
together with the returned DataFrame or the raised exception. -/
def fetch_city_hourly (city_name : String) (lat lon : ℚ) (days_back : Nat)
    (net : Request → Response) : Request × FetchResult :=
  let req := buildRequest lat lon days_back
  (req, handleResponse city_name (net req))

/-! ## Cache model (`@st.cache_data(ttl=300)` and `fetch_city_hourly.clear()`) -/

/-- Argument tuple keying the `st.cache_data` memoization of
`fetch_city_hourly`. -/
structure FetchArgs where
  city_name : String
  lat : ℚ
  lon : ℚ
  days_back : Nat
deriving DecidableEq

/-- One memoized entry: the keying arguments, the time the value was
stored, and the cached DataFrame (Streamlit caches only successful
returns; exceptions are not cached). -/
structure CacheEntry where
  args : FetchArgs
  storedAt : Nat
  rows : List Row
deriving DecidableEq

/-- The TTL passed to `st.cache_data` (seconds). -/
def cacheTTL : Nat := 300

/-- Cache lookup: an entry is served only while younger than the TTL. -/
def cacheLookup (ttl now : Nat) (cache : List CacheEntry) (a : FetchArgs) :
    Option (List Row) :=
  match cache.find? (fun e => decide (e.args = a)) with
  | some e => if now - e.storedAt < ttl then some e.rows else none
  | none => none

/-- The cached fetch as the script calls it: on a TTL-valid hit the stored
DataFrame is returned and no network request is issued (third component
`false`); otherwise the body of `fetch_city_hourly` runs against the
network and a successful result is stored. -/
def cachedFetch (net : Request → Response) (now : Nat) (cache : List CacheEntry)
    (a : FetchArgs) : FetchResult × List CacheEntry × Bool :=
  match cacheLookup cacheTTL now cache a with
  | some rows => (.ok rows, cache, false)
  | none =>
      match (fetch_city_hourly a.city_name a.lat a.lon a.days_back net).2 with
      | .ok rows => (.ok rows, { args := a, storedAt := now, rows := rows } :: cache, true)
      | .err e => (.err e, cache, true)

/-- `fetch_city_hourly.clear()`, run when the Refresh button was clicked
(app.py lines 95-97). -/
def clearCache : List CacheEntry := []

/-! ## Sidebar widgets -/

/-- The fixed city table (app.py lines 24-29); coordinates as written in
the source. -/
def CITIES : List (String × ℚ × ℚ) :=
  [ ("Riyadh", 24.7136, 46.6753)
  , ("Jeddah", 21.4858, 39.1925)
  , ("Dammam", 26.3927, 49.9777)
  , ("Abha", 18.2465, 42.5117) ]

/-- The option list of the city multiselect: `list(CITIES.keys())`. -/
def multiselect_options : List String := CITIES.map Prod.fst

/-- The default selection of the city multiselect. -/
def multiselect_default : List String := ["Riyadh", "Jeddah", "Dammam", "Abha"]

/-- A bounded integer slider with a default value. -/
structure Slider where
  min_value : Nat
  max_value : Nat
  default_value : Nat

/-- The "How many past days to include?" slider (app.py lines 37-43). -/
def days_back_slider : Slider := { min_value := 0, max_value := 3, default_value := 1 }

/-- The value a slider yields for a user's choice: the widget clamps every
interaction into `[min_value, max_value]`. -/
def sliderValue (s : Slider) (choice : Nat) : Nat :=
  min s.max_value (max s.min_value choice)

/-- `CITIES[city]` lookup; the multiselect only ever returns keys of
`CITIES`, so the default coordinates are unreachable in the script. -/
def lookupCity (c : String) : ℚ × ℚ :=
  ((CITIES.find? (fun p => decide (p.1 = c))).map Prod.snd).getD (0, 0)

/-! ## String / time ordering (for `sort_values("time")`, `groupby`, `sorted`) -/

/-- Lexicographic order on code-point lists. -/
def natListLe : List Nat → List Nat → Bool
  | [], _ => true
  | _ :: _, [] => false
  | a :: as, b :: bs => if a < b then true else if b < a then false else natListLe as bs

/-- Lexicographic string order; on the API's fixed-width ISO-8601
timestamps it is exactly chronological order. -/
def strLe (a b : String) : Bool := natListLe (a.data.map Char.toNat) (b.data.map Char.toNat)

/-- Order on strings as a decidable relation. -/
def strLeP (a b : String) : Prop := strLe a b = true

instance : DecidableRel strLeP := fun a b =>
  if h : strLe a b = true then .isTrue h else .isFalse h

/-- Row order used by `df.sort_values("time")`. -/
def timeLe (a b : Row) : Prop := strLe a.time b.time = true

instance : DecidableRel timeLe := fun a b =>
  if h : strLe a.time b.time = true then .isTrue h else .isFalse h

/-- `sorted(...)` on a list of city names. -/
def sortStrings (xs : List String) : List String := List.insertionSort strLeP xs

/-- `df.sort_values("time")` (app.py line 117): a sort of the rows by the
time column. -/
def sortByTime (df : List Row) : List Row := List.insertionSort timeLe df

/-! ## Aggregates (KPIs and the groupby summary) -/

/-- Arithmetic mean of a list of rationals (`Series.mean`); the script only
evaluates it on non-empty columns. -/
def qmean (xs : List ℚ) : ℚ := xs.sum / xs.length

/-- Maximum of a list of rationals (`Series.max` on a non-empty column). -/
def qmax : List ℚ → ℚ
  | [] => 0
  | x :: xs => xs.foldl max x

/-- Minimum of a list of rationals (`Series.min` on a non-empty column). -/
def qmin : List ℚ → ℚ
  | [] => 0
  | x :: xs => xs.foldl min x

/-- The five KPI values of the dashboard plus the record count
(app.py lines 124-129). -/
structure Metrics where
  overall_avg_temp : ℚ
  overall_max_temp : ℚ
  overall_min_temp : ℚ
  overall_avg_wind : ℚ
  num_cities : Nat
  num_records : Nat
deriving DecidableEq

/-- KPI computation over the combined table: means, max, min,
`nunique` of the city column, and `len(df)`. -/
def metricsOf (df : List Row) : Metrics :=
  { overall_avg_temp := qmean (df.map Row.temp)
    overall_max_temp := qmax (df.map Row.temp)
    overall_min_temp := qmin (df.map Row.temp)
    overall_avg_wind := qmean (df.map Row.windspeed)
    num_cities := (df.map Row.city).dedup.length
    num_records := df.length }

/-- One row of the `df.groupby("city").agg(...)` summary
(app.py lines 161-166). -/
structure SummaryRow where
  city : String
  avg_temp : ℚ
  max_temp : ℚ
  min_temp : ℚ
  avg_wind : ℚ
deriving DecidableEq

/-- The groupby summary: one row per distinct city (pandas sorts group
keys), aggregating exactly that city's rows. -/
def summary_of (df : List Row) : List SummaryRow :=
  (sortStrings (df.map Row.city).dedup).map (fun c =>
    let g := df.filter (fun r => decide (r.city = c))
    { city := c
      avg_temp := qmean (g.map Row.temp)
      max_temp := qmax (g.map Row.temp)
      min_temp := qmin (g.map Row.temp)
      avg_wind := qmean (g.map Row.windspeed) })

/-! ## Charts and the script driver -/

/-- The plotly figures the script builds, with the data handed to each and
the axis / style options that identify the chart kind. -/
inductive Chart where
  | lineChart (data : List Row) (x y : String) (colorBy : Option String) (markers : Bool)
  | barChart (data : List SummaryRow) (x y : String)
  | histChart (data : List Row) (x : String) (nbins : Nat)
  | scatterChart (data : List Row) (x y : String)
deriving DecidableEq

/-- The chart calls of app.py in script order: the overview line chart
(lines 146-154), the two summary bar charts (172-179, 185-192), and the
detail view's line chart, 15-bin histogram and scatter plot (211-238). -/
def renderCharts (df : List Row) (s : List SummaryRow) (city_df : List Row) : List Chart :=
  [ .lineChart df "time" "temp" (some "city") true
  , .barChart s "city" "avg_temp"
  , .barChart s "city" "avg_wind"
  , .lineChart city_df "time" "temp" none false
  , .histChart city_df "temp" 15
  , .scatterChart city_df "temp" "windspeed" ]

/-- The city picked in the detail selectbox: its options are
`sorted(df["city"].unique())` and a choice is an index into them (an
out-of-range index models the widget's default, the first option). -/
def detailCityOf (df : List Row) (i : Nat) : String :=
  let options := sortStrings (df.map Row.city).dedup
  options.getD i (options.getD 0 "")

/-- `city_df`: the combined table restricted to the detail city
(app.py line 205). -/
def city_df_of (df : List Row) (i : Nat) : List Row :=
  df.filter (fun r => decide (r.city = detailCityOf df i))

/-- One iteration of the fetch loop for one city: look up its coordinates
and call `fetch_city_hourly` (app.py lines 103-106).  This models a run
against a cold cache, so the call reaches the network. -/
def fetchFor (net : Request → Response) (days_back : Nat) (c : String) :
    Request × FetchResult :=
  let info := lookupCity c
  fetch_city_hourly c info.1 info.2 days_back net

/-- The fetch loop over the selected cities (app.py lines 102-110): every
city is attempted exactly once, in order; an exception is caught, recorded,
and the loop continues. -/
def fetchLoop (net : Request → Response) (days_back : Nat) (selected : List String) :
    List (String × Request × FetchResult) :=
  selected.map (fun c => (c, fetchFor net days_back c))

/-- `all_dfs`: the non-empty successfully fetched tables, in loop order
(app.py lines 102-108). -/
def all_dfs_of (results : List (String × Request × FetchResult)) : List (List Row) :=
  results.filterMap (fun p =>
    match p.2.2 with
    | .ok rows => if rows.isEmpty then none else some rows
    | .err _ => none)

/-- The `st.error` messages the loop surfaces, one per failing city
(app.py line 110). -/
def errMsgText : FetchErr → String
  | .httpError s => "HTTPError: " ++ toString s
  | .keyError k => "KeyError: " ++ k
  | .frameError => "ValueError: frame construction failed"

/-- The f-string `f"Error fetching data for {city}: {e}"`. -/
def errorMessage (city : String) (e : FetchErr) : String :=
  "Error fetching data for " ++ city ++ ": " ++ errMsgText e

/-- The (city, exception) pairs the loop catches, in loop order. -/
def errorsOf (results : List (String × Request × FetchResult)) : List (String × FetchErr) :=
  results.filterMap (fun p =>
    match p.2.2 with
    | .ok _ => none
    | .err e => some (p.1, e))

/-- Whether a fetch outcome contributes a table to `all_dfs`. -/
def FetchResult.usable : FetchResult → Bool
  | .ok rows => !rows.isEmpty
  | .err _ => false

/-- The combined table `df` (app.py lines 116-117): concatenation of the
per-city tables, re-sorted by time. -/
def df_of (results : List (String × Request × FetchResult)) : List Row :=
  sortByTime (all_dfs_of results).flatten

/-- How one run of the script ends: the empty-selection early exit
(app.py lines 50-52), the no-data early exit (lines 112-114), or a full
render carrying the fetch results, combined table, KPIs, summary and the
charts drawn. -/
inductive Outcome where
  | stoppedNoCities
  | stoppedNoData (results : List (String × Request × FetchResult))
  | rendered (results : List (String × Request × FetchResult)) (df : List Row)
      (m : Metrics) (s : List SummaryRow) (charts : List Chart)

/-- The requests a run issued (none when the script stopped before the
loop). -/
def Outcome.requests : Outcome → List Request
  | .stoppedNoCities => []
  | .stoppedNoData results => results.map (fun p => p.2.1)
  | .rendered results _ _ _ _ => results.map (fun p => p.2.1)

/-- One top-to-bottom run of the script with a cold cache: widget states
in, `Outcome` out.  `daysChoice` is the user's slider interaction,
`detailIdx` the detail-selectbox choice. -/
def runScript (selected : List String) (daysChoice : Nat) (net : Request → Response)
    (detailIdx : Nat) : Outcome :=
  if selected.isEmpty then .stoppedNoCities
  else
    let results := fetchLoop net (sliderValue days_back_slider daysChoice) selected
    if (all_dfs_of results).isEmpty then .stoppedNoData results
    else
      .rendered results (df_of results) (metricsOf (df_of results))
        (summary_of (df_of results))
        (renderCharts (df_of results) (summary_of (df_of results))
          (city_df_of (df_of results) detailIdx))


/-! ## Demonstration fixtures (concrete networks used by the witnesses) -/

/-- A concrete well-formed `hourly` object with two samples, listed out of
time order so that the sort is visible. -/
def demoKvs : List (String × Json) :=
  [ ("time", Json.arr [Json.str "2024-01-01T01:00", Json.str "2024-01-01T00:00"])
  , ("temperature_2m", Json.arr [Json.num 22, Json.num 20])
  , ("windspeed_10m", Json.arr [Json.num 6, Json.num 5])
  , ("winddirection_10m", Json.arr [Json.num 190, Json.num 180]) ]

/-- A concrete well-formed response body. -/
def demoBody : Json := Json.obj [("hourly", Json.obj demoKvs)]

/-- A network that always answers 200 with `demoBody`. -/
def demoNet : Request → Response := fun _ => { status := 200, body := demoBody }

/-- A network that always answers 500. -/
def badNet : Request → Response := fun _ => { status := 500, body := Json.null }

/-- The fetch results of a one-city run against `demoNet`. -/
def demoResults : List (String × Request × FetchResult) :=
  fetchLoop demoNet (sliderValue days_back_slider 1) ["Riyadh"]

/-- The cache key of a Riyadh fetch with one past day. -/
def demoArgs : FetchArgs :=
  { city_name := "Riyadh", lat := 24.7136, lon := 46.6753, days_back := 1 }

/-- The table `demoNet`'s response parses to. -/
def demoRows : List Row :=
  [ { city := "Riyadh", time := "2024-01-01T01:00", temp := 22, windspeed := 6,
      winddirection := 190 }
  , { city := "Riyadh", time := "2024-01-01T00:00", temp := 20, windspeed := 5,
      winddirection := 180 } ]

/-- A concrete two-city combined table. -/
def demoDf : List Row :=
  [ { city := "Riyadh", time := "2024-01-01T00:00", temp := 20, windspeed := 5,
      winddirection := 180 }
  , { city := "Jeddah", time := "2024-01-01T00:00", temp := 25, windspeed := 7,
      winddirection := 90 } ]

/-! ## Order lemmas for the sorts -/

theorem natListLe_refl : ∀ as, natListLe as as = true := by
  intro as
  induction as with
  | nil => rfl
  | cons a as ih => simp [natListLe, ih]

theorem natListLe_total : ∀ as bs, natListLe as bs = true ∨ natListLe bs as = true := by
  intro as
  induction as with
  | nil => intro bs; left; rfl
  | cons a as ih =>
    intro bs
    cases bs with
    | nil => right; rfl
    | cons b bs =>
      rcases Nat.lt_trichotomy a b with h | h | h
      · left; simp [natListLe, h]
      · subst h
        rcases ih bs with h2 | h2
        · left; simp [natListLe, h2]
        · right; simp [natListLe, h2]
      · right; simp [natListLe, h]

theorem natListLe_trans :
    ∀ as bs cs, natListLe as bs = true → natListLe bs cs = true → natListLe as cs = true := by
  intro as
  induction as with
  | nil => intro bs cs _ _; rfl
  | cons a as ih =>
    intro bs cs h1 h2
    cases bs with
    | nil => simp [natListLe] at h1
    | cons b bs =>
      cases cs with
      | nil => simp [natListLe] at h2
      | cons c cs =>
        simp only [natListLe] at h1 h2 ⊢
        by_cases hab : a < b
        · by_cases hbc : b < c
          · simp [Nat.lt_trans hab hbc]
          · by_cases hcb : c < b
            · simp [hbc, hcb] at h2
            · have hbc2 : b = c := Nat.le_antisymm (Nat.not_lt.mp hcb) (Nat.not_lt.mp hbc)
              subst hbc2
              simp [hab]
        · by_cases hba : b < a
          · simp [hab, hba] at h1
          · have hab2 : a = b := Nat.le_antisymm (Nat.not_lt.mp hba) (Nat.not_lt.mp hab)
            subst hab2
            simp only [Nat.lt_irrefl, if_false] at h1
            by_cases hac : a < c
            · simp [hac]
            · by_cases hca : c < a
              · simp [hac, hca] at h2
              · simp only [hac, hca, if_false] at h2 ⊢
                exact ih bs cs h1 h2

theorem strLe_total (a b : String) : strLe a b = true ∨ strLe b a = true :=
  natListLe_total _ _

theorem strLe_trans {a b c : String} (h1 : strLe a b = true) (h2 : strLe b c = true) :
    strLe a c = true :=
  natListLe_trans _ _ _ h1 h2

instance : IsTotal Row timeLe := ⟨fun a b => strLe_total a.time b.time⟩

instance : IsTrans Row timeLe := ⟨fun _ _ _ h1 h2 => strLe_trans h1 h2⟩

instance : IsTotal String strLeP := ⟨fun a b => strLe_total a b⟩

instance : IsTrans String strLeP := ⟨fun _ _ _ h1 h2 => strLe_trans h1 h2⟩

theorem sortByTime_perm (df : List Row) : (sortByTime df).Perm df :=
  List.perm_insertionSort _ _

theorem sortByTime_sorted (df : List Row) : List.Sorted timeLe (sortByTime df) :=
  List.sorted_insertionSort _ _

theorem sortStrings_perm (xs : List String) : (sortStrings xs).Perm xs :=
  List.perm_insertionSort _ _

/-! ## DataFrame-construction lemmas -/

theorem mkRows_length (c : String) :
    ∀ (ts : List String) (xs ys zs : List ℚ),
      ts.length = xs.length → ts.length = ys.length → ts.length = zs.length →
      (mkRows c ts xs ys zs).length = ts.length := by
  intro ts
  induction ts with
  | nil => intro xs ys zs _ _ _; rfl
  | cons t ts ih =>
    intro xs ys zs hx hy hz
    cases xs with
    | nil => simp at hx
    | cons x xs =>
      cases ys with
      | nil => simp at hy
      | cons y ys =>
        cases zs with
        | nil => simp at hz
        | cons z zs =>
          simp only [mkRows, List.length_cons, Nat.succ.injEq] at hx hy hz ⊢
          exact ih xs ys zs hx hy hz

theorem mkRows_getElem? (c : String) :
    ∀ (ts : List String) (xs ys zs : List ℚ) (i : Nat),
      ts.length = xs.length → ts.length = ys.length → ts.length = zs.length →
      i < ts.length →
      ∃ t x y z, ts[i]? = some t ∧ xs[i]? = some x ∧ ys[i]? = some y ∧ zs[i]? = some z ∧
        (mkRows c ts xs ys zs)[i]? =
          some { city := c, time := t, temp := x, windspeed := y, winddirection := z } := by
  intro ts
  induction ts with
  | nil => intro xs ys zs i _ _ _ hi; simp at hi
  | cons t ts ih =>
    intro xs ys zs i hx hy hz hi
    cases xs with
    | nil => simp at hx
    | cons x xs =>
      cases ys with
      | nil => simp at hy
      | cons y ys =>
        cases zs with
        | nil => simp at hz
        | cons z zs =>
          simp only [List.length_cons, Nat.succ.injEq] at hx hy hz
          cases i with
          | zero => exact ⟨t, x, y, z, by simp, by simp, by simp, by simp, by simp [mkRows]⟩
          | succ i =>
            have hi2 : i < ts.length := by
              simp only [List.length_cons] at hi
              omega
            obtain ⟨t2, x2, y2, z2, h1, h2, h3, h4, h5⟩ := ih xs ys zs i hx hy hz hi2
            exact ⟨t2, x2, y2, z2, by simpa using h1, by simpa using h2,
              by simpa using h3, by simpa using h4, by simpa [mkRows] using h5⟩

theorem rowsAux_map (c : String) :
    ∀ (ts : List String) (xs ys zs : List ℚ),
      ts.length = xs.length → ts.length = ys.length → ts.length = zs.length →
      rowsAux c (ts.map Json.str) (xs.map Json.num) (ys.map Json.num) (zs.map Json.num) =
        some (mkRows c ts xs ys zs) := by
  intro ts
  induction ts with
  | nil =>
    intro xs ys zs hx hy hz
    cases xs with
    | nil =>
      cases ys with
      | nil =>
        cases zs with
        | nil => rfl
        | cons _ _ => simp at hz
      | cons _ _ => simp at hy
    | cons _ _ => simp at hx
  | cons t ts ih =>
    intro xs ys zs hx hy hz
    cases xs with
    | nil => simp at hx
    | cons x xs =>
      cases ys with
      | nil => simp at hy
      | cons y ys =>
        cases zs with
        | nil => simp at hz
        | cons z zs =>
          simp only [List.length_cons, Nat.succ.injEq] at hx hy hz
          simp only [List.map_cons, rowsAux, mkRows, ih xs ys zs hx hy hz]
          rfl

/-! ## Script-level helper lemmas -/

theorem runScript_rendered_inv {selected : List String} {d i : Nat}
    {net : Request → Response} {res : List (String × Request × FetchResult)}
    {df : List Row} {m : Metrics} {s : List SummaryRow} {ch : List Chart}
    (h : runScript selected d net i = .rendered res df m s ch) :
    res = fetchLoop net (sliderValue days_back_slider d) selected ∧
    df = df_of res ∧ m = metricsOf df ∧ s = summary_of df ∧
    ch = renderCharts df s (city_df_of df i) := by
  simp only [runScript] at h
  split at h
  · simp at h
  · split at h
    · simp at h
    · injection h with e1 e2 e3 e4 e5
      subst e1
      subst e2
      subst e3
      subst e4
      subst e5
      exact ⟨rfl, rfl, rfl, rfl, rfl⟩

theorem all_dfs_of_eq_nil {net : Request → Response} {d : Nat} :
    ∀ selected : List String,
      (∀ c ∈ selected, (fetchFor net d c).2.usable = false) →
      all_dfs_of (fetchLoop net d selected) = [] := by
  intro selected
  induction selected with
  | nil => intro _; rfl
  | cons c cs ih =>
    intro h
    have hc := h c (List.mem_cons_self c cs)
    have ihh := ih (fun x hx => h x (List.mem_cons_of_mem c hx))
    simp only [fetchLoop, List.map_cons, all_dfs_of, List.filterMap_cons] at ihh ⊢
    cases hres : (fetchFor net d c).2 with
    | ok rows =>
      rw [hres] at hc
      simp only [FetchResult.usable, Bool.not_eq_false'] at hc
      simp only [hres, hc, if_true]
      exact ihh
    | err e =>
      simp only [hres]
      exact ihh

theorem handleResponse_ok (city_name : String) (resp : Response)
    (kvs : List (String × Json)) (ts : List String) (xs ys zs : List ℚ)
    (hst : resp.status < 400)
    (hh : resp.body.get "hourly" = some (Json.obj kvs))
    (hne : kvs ≠ [])
    (ht : (Json.obj kvs).get "time" = some (Json.arr (ts.map Json.str)))
    (hx : (Json.obj kvs).get "temperature_2m" = some (Json.arr (xs.map Json.num)))
    (hy : (Json.obj kvs).get "windspeed_10m" = some (Json.arr (ys.map Json.num)))
    (hz : (Json.obj kvs).get "winddirection_10m" = some (Json.arr (zs.map Json.num)))
    (hlx : ts.length = xs.length) (hly : ts.length = ys.length)
    (hlz : ts.length = zs.length) :
    handleResponse city_name resp = .ok (mkRows city_name ts xs ys zs) := by
  have hkvs : kvs.isEmpty = false := by
    cases kvs with
    | nil => exact absurd rfl hne
    | cons a l => rfl
  unfold handleResponse
  rw [if_neg (by omega : ¬(400 ≤ resp.status ∧ resp.status < 600))]
  simp only [hh, Option.getD_some, Json.truthy, hkvs, Bool.not_false, ht, hx, hy, hz]
  simp only [buildFrame, rowsAux_map city_name ts xs ys zs hlx hly hlz]
  rfl

/-! ## The claims -/

/-- C1: for every JSON response body whose "hourly" key holds a non-empty
object containing the four parallel arrays "time", "temperature_2m",
"windspeed_10m" and "winddirection_10m" of equal length `n`,
`fetch_city_hourly` returns a table (a list of `Row`, whose five fields are
exactly the columns city, time, temp, windspeed, winddirection) with
exactly `n` rows, and row `i` holds the city name, the parsed `i`-th time
and the `i`-th temperature, windspeed and winddirection. -/
theorem claim_C1 (city_name : String) (lat lon : ℚ) (days_back n : Nat)
    (net : Request → Response) (kvs : List (String × Json))
    (ts : List String) (xs ys zs : List ℚ)
    (hst : (net (buildRequest lat lon days_back)).status < 400)
    (hh : (net (buildRequest lat lon days_back)).body.get "hourly" = some (Json.obj kvs))
    (hne : kvs ≠ [])
    (ht : (Json.obj kvs).get "time" = some (Json.arr (ts.map Json.str)))
    (hx : (Json.obj kvs).get "temperature_2m" = some (Json.arr (xs.map Json.num)))
    (hy : (Json.obj kvs).get "windspeed_10m" = some (Json.arr (ys.map Json.num)))
    (hz : (Json.obj kvs).get "winddirection_10m" = some (Json.arr (zs.map Json.num)))
    (hlt : ts.length = n) (hlx : xs.length = n) (hly : ys.length = n)
    (hlz : zs.length = n) :
    (fetch_city_hourly city_name lat lon days_back net).2 =
      .ok (mkRows city_name ts xs ys zs) ∧
    (mkRows city_name ts xs ys zs).length = n ∧
    (∀ i < n, ∃ t x y z,
      ts[i]? = some t ∧ xs[i]? = some x ∧ ys[i]? = some y ∧ zs[i]? = some z ∧
      (mkRows city_name ts xs ys zs)[i]? =
        some { city := city_name, time := t, temp := x, windspeed := y,
               winddirection := z }) := by
  refine ⟨?_, ?_, ?_⟩
  · show handleResponse city_name (net (buildRequest lat lon days_back)) = _
    exact handleResponse_ok city_name _ kvs ts xs ys zs hst hh hne ht hx hy hz
      (by omega) (by omega) (by omega)
  · rw [mkRows_length city_name ts xs ys zs (by omega) (by omega) (by omega)]
    exact hlt
  · intro i hi
    exact mkRows_getElem? city_name ts xs ys zs i (by omega) (by omega) (by omega)
      (by omega)

/-- Witness for C1: the two-sample response of `demoNet` yields exactly the
two expected rows. -/
theorem claim_C1_witness :
    (fetch_city_hourly "Riyadh" 24.7136 46.6753 1 demoNet).2 =
      .ok (mkRows "Riyadh" ["2024-01-01T01:00", "2024-01-01T00:00"]
        [22, 20] [6, 5] [190, 180]) ∧
    (mkRows "Riyadh" ["2024-01-01T01:00", "2024-01-01T00:00"]
      [22, 20] [6, 5] [190, 180]).length = 2 :=
  have h := claim_C1 "Riyadh" 24.7136 46.6753 1 2 demoNet demoKvs
    ["2024-01-01T01:00", "2024-01-01T00:00"] [22, 20] [6, 5] [190, 180]
    (by decide) rfl (by simp [demoKvs]) rfl rfl rfl rfl rfl rfl rfl rfl
  ⟨h.1, h.2.1⟩

/-- C2: the per-city summary has one row for each distinct city of the
combined table, each row aggregating (mean, max, min of temp; mean of
windspeed) exactly that city's rows, and the top-level metrics are the
mean/max/min of temp, mean of windspeed, number of distinct cities and
number of rows over the whole table. -/
theorem claim_C2 (df : List Row) (_hne : df ≠ []) :
    ((summary_of df).map SummaryRow.city).Nodup ∧
    (∀ c, c ∈ (summary_of df).map SummaryRow.city ↔ c ∈ df.map Row.city) ∧
    (∀ s ∈ summary_of df,
      s.avg_temp = qmean ((df.filter (fun r => decide (r.city = s.city))).map Row.temp) ∧
      s.max_temp = qmax ((df.filter (fun r => decide (r.city = s.city))).map Row.temp) ∧
      s.min_temp = qmin ((df.filter (fun r => decide (r.city = s.city))).map Row.temp) ∧
      s.avg_wind = qmean ((df.filter (fun r => decide (r.city = s.city))).map Row.windspeed)) ∧
    (metricsOf df).overall_avg_temp = qmean (df.map Row.temp) ∧
    (metricsOf df).overall_max_temp = qmax (df.map Row.temp) ∧
    (metricsOf df).overall_min_temp = qmin (df.map Row.temp) ∧
    (metricsOf df).overall_avg_wind = qmean (df.map Row.windspeed) ∧
    (metricsOf df).num_cities = (df.map Row.city).dedup.length ∧
    (metricsOf df).num_records = df.length := by
  have hcities : (summary_of df).map SummaryRow.city = sortStrings (df.map Row.city).dedup := by
    simp only [summary_of, List.map_map]
    exact List.map_id _
  refine ⟨?_, ?_, ?_, rfl, rfl, rfl, rfl, rfl, rfl⟩
  · rw [hcities]
    exact ((sortStrings_perm _).nodup_iff).mpr (List.nodup_dedup _)
  · intro c
    rw [hcities, List.Perm.mem_iff (sortStrings_perm _)]
    exact List.mem_dedup
  · intro s hs
    rcases List.mem_map.mp hs with ⟨c, _, rfl⟩
    exact ⟨rfl, rfl, rfl, rfl⟩

/-- Witness for C2: the summary of the concrete two-city table has
pairwise-distinct city labels and the record count equals the table
length. -/
theorem claim_C2_witness :
    ((summary_of demoDf).map SummaryRow.city).Nodup ∧
    (metricsOf demoDf).num_records = demoDf.length :=
  ⟨(claim_C2 demoDf (by simp [demoDf])).1,
   (claim_C2 demoDf (by simp [demoDf])).2.2.2.2.2.2.2.2⟩

/-- C3: a failing fetch is surfaced as exactly one user-visible message
naming the city; the loop still visits every selected city exactly once,
in order (no abort, no retry, no fallback): the loop's city trace is the
selection itself, and the caught errors are precisely the failing cities
paired with their exceptions. -/
theorem claim_C3 (selected : List String) (days_back : Nat)
    (net : Request → Response) :
    (fetchLoop net days_back selected).map Prod.fst = selected ∧
    errorsOf (fetchLoop net days_back selected) =
      selected.filterMap (fun c =>
        match (fetchFor net days_back c).2 with
        | .ok _ => none
        | .err e => some (c, e)) ∧
    (∀ c e, errorMessage c e =
      "Error fetching data for " ++ c ++ ": " ++ errMsgText e) := by
  refine ⟨?_, ?_, fun c e => rfl⟩
  · simp only [fetchLoop, List.map_map]
    exact List.map_id _
  · simp only [errorsOf, fetchLoop, List.filterMap_map]
    rfl

/-- C4: within the 300-second TTL window a second call with the same
arguments returns the table cached by the first call and issues no network
request, and after the Refresh button clears the cache the next call goes
to the network again. -/
theorem claim_C4 (net : Request → Response) (cache : List CacheEntry)
    (a : FetchArgs) (t1 t2 : Nat) (rows : List Row)
    (hmiss : cacheLookup cacheTTL t1 cache a = none)
    (hok : (cachedFetch net t1 cache a).1 = .ok rows)
    (hwin : t2 - t1 < 300) :
    cachedFetch net t2 (cachedFetch net t1 cache a).2.1 a
      = (.ok rows, (cachedFetch net t1 cache a).2.1, false) ∧
    (cachedFetch net t2 clearCache a).2.2 = true := by
  constructor
  · have hfirst : cachedFetch net t1 cache a =
        match (fetch_city_hourly a.city_name a.lat a.lon a.days_back net).2 with
        | .ok rows => (.ok rows, { args := a, storedAt := t1, rows := rows } :: cache, true)
        | .err e => (.err e, cache, true) := by
      unfold cachedFetch
      rw [hmiss]
    cases hres : (fetch_city_hourly a.city_name a.lat a.lon a.days_back net).2 with
    | ok rows2 =>
      rw [hfirst, hres] at hok ⊢
      simp only at hok
      injection hok with hrows
      subst hrows
      have hfind : (({ args := a, storedAt := t1, rows := rows2 } : CacheEntry) :: cache).find?
          (fun e => decide (e.args = a)) =
          some { args := a, storedAt := t1, rows := rows2 } :=
        List.find?_cons_of_pos _ (by simp)
      have hlook : cacheLookup cacheTTL t2
          (({ args := a, storedAt := t1, rows := rows2 } : CacheEntry) :: cache) a =
          some rows2 := by
        unfold cacheLookup
        rw [hfind]
        simp only
        rw [if_pos (show t2 - t1 < cacheTTL from hwin)]
      show cachedFetch net t2 _ a = _
      unfold cachedFetch
      rw [hlook]
    | err e =>
      rw [hfirst, hres] at hok
      simp at hok
  · have hlook : cacheLookup cacheTTL t2 clearCache a = none := rfl
    unfold cachedFetch
    rw [hlook]
    cases (fetch_city_hourly a.city_name a.lat a.lon a.days_back net).2 <;> rfl

/-- Witness for C4: against `demoNet` with an empty cache at time 0, the
call at time 100 is served from the cache without a request, and a call
against the cleared cache issues a request. -/
theorem claim_C4_witness :
    cachedFetch demoNet 100 (cachedFetch demoNet 0 [] demoArgs).2.1 demoArgs
      = (.ok demoRows, (cachedFetch demoNet 0 [] demoArgs).2.1, false) ∧
    (cachedFetch demoNet 100 clearCache demoArgs).2.2 = true :=
  claim_C4 demoNet [] demoArgs 0 100 demoRows rfl (by decide) (by decide)

/-- C5: the multiselect offers exactly Riyadh, Jeddah, Dammam and Abha
(which is also the default selection), and every request issued by the
fetch loop for any selection drawn from those options carries the latitude
and longitude recorded in `CITIES` for one of the four cities. -/
theorem claim_C5 :
    multiselect_options = ["Riyadh", "Jeddah", "Dammam", "Abha"] ∧
    multiselect_default = ["Riyadh", "Jeddah", "Dammam", "Abha"] ∧
    ∀ (selected : List String) (days_back : Nat) (net : Request → Response),
      (∀ c ∈ selected, c ∈ multiselect_options) →
      ∀ p ∈ fetchLoop net days_back selected,
        ∃ q ∈ CITIES, p.2.1 = buildRequest q.2.1 q.2.2 days_back := by
  refine ⟨rfl, rfl, ?_⟩
  intro selected days_back net hsel p hp
  rcases List.mem_map.mp hp with ⟨c, hc, rfl⟩
  have hc2 := hsel c hc
  simp only [multiselect_options, CITIES, List.map_cons, List.map_nil,
    List.mem_cons, List.not_mem_nil, or_false] at hc2
  rcases hc2 with rfl | rfl | rfl | rfl
  · exact ⟨("Riyadh", 24.7136, 46.6753), by simp [CITIES], rfl⟩
  · exact ⟨("Jeddah", 21.4858, 39.1925), by simp [CITIES], rfl⟩
  · exact ⟨("Dammam", 26.3927, 49.9777), by simp [CITIES], rfl⟩
  · exact ⟨("Abha", 18.2465, 42.5117), by simp [CITIES], rfl⟩

/-- Witness for C5: the single request of a one-city run uses the
coordinates of a `CITIES` entry. -/
theorem claim_C5_witness :
    ∃ q ∈ CITIES,
      (("Riyadh", fetchFor demoNet 1 "Riyadh") : String × Request × FetchResult).2.1
        = buildRequest q.2.1 q.2.2 1 :=
  claim_C5.2.2 ["Riyadh"] 1 demoNet (by decide)
    ("Riyadh", fetchFor demoNet 1 "Riyadh") (List.mem_singleton.mpr rfl)

/-- C6: the lookback slider is bounded by 0 and 3 inclusive with default 1,
every value it can yield lies in those bounds, and the request
`fetch_city_hourly` issues carries past_days equal to the chosen value,
forecast_days equal to 1, and exactly the three hourly variables
temperature_2m, windspeed_10m, winddirection_10m. -/
theorem claim_C6 :
    days_back_slider.min_value = 0 ∧ days_back_slider.max_value = 3 ∧
    days_back_slider.default_value = 1 ∧
    (∀ choice, days_back_slider.min_value ≤ sliderValue days_back_slider choice ∧
      sliderValue days_back_slider choice ≤ days_back_slider.max_value) ∧
    (∀ city_name lat lon days_back net,
      (fetch_city_hourly city_name lat lon days_back net).1 =
        buildRequest lat lon days_back) ∧
    (∀ lat lon days_back,
      (buildRequest lat lon days_back).past_days = days_back ∧
      (buildRequest lat lon days_back).forecast_days = 1 ∧
      (buildRequest lat lon days_back).hourly =
        ["temperature_2m", "windspeed_10m", "winddirection_10m"]) := by
  refine ⟨rfl, rfl, rfl, ?_, fun _ _ _ _ _ => rfl, fun _ _ _ => ⟨rfl, rfl, rfl⟩⟩
  intro choice
  constructor
  · exact Nat.zero_le _
  · exact Nat.min_le_left _ _

/-- A network answering 200 with a body that has no "hourly" key. -/
def netEmptyHourly : Request → Response := fun _ => { status := 200, body := Json.obj [] }

/-- A network answering 200 with a non-empty "hourly" object that lacks
the "temperature_2m" array. -/
def netMissingKey : Request → Response := fun _ =>
  { status := 200
    body := Json.obj [("hourly", Json.obj [("time", Json.arr [])])] }

/-- C7: whenever a run reaches the render stage, the charts drawn are
exactly the advertised ones: the by-city temperature line chart with
markers, the two per-city bar charts (average temperature, average wind),
and for the detail city a line chart, a 15-bin temperature histogram, and
a temperature-versus-windspeed scatter plot. -/
theorem claim_C7 (selected : List String) (daysChoice : Nat)
    (net : Request → Response) (detailIdx : Nat)
    (res : List (String × Request × FetchResult)) (df : List Row)
    (m : Metrics) (s : List SummaryRow) (ch : List Chart)
    (h : runScript selected daysChoice net detailIdx = .rendered res df m s ch) :
    ch = [ .lineChart df "time" "temp" (some "city") true
         , .barChart s "city" "avg_temp"
         , .barChart s "city" "avg_wind"
         , .lineChart (city_df_of df detailIdx) "time" "temp" none false
         , .histChart (city_df_of df detailIdx) "temp" 15
         , .scatterChart (city_df_of df detailIdx) "temp" "windspeed" ] := by
  obtain ⟨-, -, -, -, h5⟩ := runScript_rendered_inv h
  rw [h5]
  rfl

/-- Witness for C7: the one-city demo run renders exactly the six
advertised charts. -/
theorem claim_C7_witness :
    renderCharts (df_of demoResults) (summary_of (df_of demoResults))
        (city_df_of (df_of demoResults) 0) =
      [ .lineChart (df_of demoResults) "time" "temp" (some "city") true
      , .barChart (summary_of (df_of demoResults)) "city" "avg_temp"
      , .barChart (summary_of (df_of demoResults)) "city" "avg_wind"
      , .lineChart (city_df_of (df_of demoResults) 0) "time" "temp" none false
      , .histChart (city_df_of (df_of demoResults) 0) "temp" 15
      , .scatterChart (city_df_of (df_of demoResults) 0) "temp" "windspeed" ] :=
  claim_C7 ["Riyadh"] 1 demoNet 0 demoResults (df_of demoResults)
    (metricsOf (df_of demoResults)) (summary_of (df_of demoResults))
    (renderCharts (df_of demoResults) (summary_of (df_of demoResults))
      (city_df_of (df_of demoResults) 0)) rfl

/-- C8: on a 2xx/3xx response, a body whose "hourly" key is missing or
maps to a falsy (empty) value makes `fetch_city_hourly` return an empty
table without raising, while a non-empty "hourly" object that lacks one of
the four expected keys makes it raise a KeyError for a missing key rather
than return an empty table. -/
theorem claim_C8 (city_name : String) (lat lon : ℚ) (days_back : Nat)
    (net : Request → Response)
    (hst : (net (buildRequest lat lon days_back)).status < 400) :
    ((∀ j, (net (buildRequest lat lon days_back)).body.get "hourly" = some j →
        j.truthy = false) →
      (fetch_city_hourly city_name lat lon days_back net).2 = .ok []) ∧
    (∀ kvs, (net (buildRequest lat lon days_back)).body.get "hourly" =
          some (Json.obj kvs) →
      kvs ≠ [] →
      (∃ k ∈ (["time", "temperature_2m", "windspeed_10m",
          "winddirection_10m"] : List String), (Json.obj kvs).get k = none) →
      ∃ k ∈ (["time", "temperature_2m", "windspeed_10m",
          "winddirection_10m"] : List String),
        (Json.obj kvs).get k = none ∧
        (fetch_city_hourly city_name lat lon days_back net).2 =
          .err (.keyError k)) := by
  have hnr : ¬(400 ≤ (net (buildRequest lat lon days_back)).status ∧
      (net (buildRequest lat lon days_back)).status < 600) := by omega
  constructor
  · intro hj
    show handleResponse city_name (net (buildRequest lat lon days_back)) = .ok []
    unfold handleResponse
    rw [if_neg hnr]
    cases hget : (net (buildRequest lat lon days_back)).body.get "hourly" with
    | none => simp [hget, Json.truthy]
    | some j =>
      have hj2 := hj j hget
      simp [hget, hj2]
  · intro kvs hh hne hex
    have hkvs : kvs.isEmpty = false := by
      cases kvs with
      | nil => exact absurd rfl hne
      | cons a l => rfl
    cases h1 : (Json.obj kvs).get "time" with
    | none =>
      refine ⟨"time", by simp, h1, ?_⟩
      show handleResponse city_name (net (buildRequest lat lon days_back)) = _
      unfold handleResponse
      rw [if_neg hnr]
      simp [hh, Json.truthy, hkvs, h1]
    | some v1 =>
      cases h2 : (Json.obj kvs).get "temperature_2m" with
      | none =>
        refine ⟨"temperature_2m", by simp, h2, ?_⟩
        show handleResponse city_name (net (buildRequest lat lon days_back)) = _
        unfold handleResponse
        rw [if_neg hnr]
        simp [hh, Json.truthy, hkvs, h1, h2]
      | some v2 =>
        cases h3 : (Json.obj kvs).get "windspeed_10m" with
        | none =>
          refine ⟨"windspeed_10m", by simp, h3, ?_⟩
          show handleResponse city_name (net (buildRequest lat lon days_back)) = _
          unfold handleResponse
          rw [if_neg hnr]
          simp [hh, Json.truthy, hkvs, h1, h2, h3]
        | some v3 =>
          cases h4 : (Json.obj kvs).get "winddirection_10m" with
          | none =>
            refine ⟨"winddirection_10m", by simp, h4, ?_⟩
            show handleResponse city_name (net (buildRequest lat lon days_back)) = _
            unfold handleResponse
            rw [if_neg hnr]
            simp [hh, Json.truthy, hkvs, h1, h2, h3, h4]
          | some v4 =>
            exfalso
            rcases hex with ⟨k, hk, hget⟩
            simp only [List.mem_cons, List.not_mem_nil, or_false] at hk
            rcases hk with rfl | rfl | rfl | rfl
            · rw [h1] at hget; exact Option.noConfusion hget
            · rw [h2] at hget; exact Option.noConfusion hget
            · rw [h3] at hget; exact Option.noConfusion hget
            · rw [h4] at hget; exact Option.noConfusion hget

/-- Witness for C8: a body without "hourly" yields an empty table, and a
non-empty "hourly" lacking "temperature_2m" raises a KeyError. -/
theorem claim_C8_witness :
    (fetch_city_hourly "X" 0 0 1 netEmptyHourly).2 = .ok [] ∧
    (∃ k ∈ (["time", "temperature_2m", "windspeed_10m",
        "winddirection_10m"] : List String),
      (Json.obj [("time", Json.arr [])]).get k = none ∧
      (fetch_city_hourly "X" 0 0 1 netMissingKey).2 = .err (.keyError k)) :=
  ⟨(claim_C8 "X" 0 0 1 netEmptyHourly (by decide)).1
      (fun j h => by simp [netEmptyHourly, Json.get] at h),
   (claim_C8 "X" 0 0 1 netMissingKey (by decide)).2 [("time", Json.arr [])] rfl
      (by simp) ⟨"temperature_2m", by simp, rfl⟩⟩

/-- C9: with an empty city selection the script stops with a warning
before issuing any request, and when every fetch fails or returns an
empty table it stops with an error before computing any metric or chart
(the `stoppedNoData` outcome carries no metrics, summary or charts). -/
theorem claim_C9 (selected : List String) (daysChoice : Nat)
    (net : Request → Response) (detailIdx : Nat) :
    (selected = [] →
      runScript selected daysChoice net detailIdx = .stoppedNoCities ∧
      (runScript selected daysChoice net detailIdx).requests = []) ∧
    (selected ≠ [] →
      (∀ c ∈ selected,
        (fetchFor net (sliderValue days_back_slider daysChoice) c).2.usable = false) →
      runScript selected daysChoice net detailIdx =
        .stoppedNoData (fetchLoop net (sliderValue days_back_slider daysChoice) selected)) := by
  constructor
  · rintro rfl
    exact ⟨rfl, rfl⟩
  · intro hne hfail
    have hnil := all_dfs_of_eq_nil selected hfail
    have hsel : selected.isEmpty = false := by
      cases selected with
      | nil => exact absurd rfl hne
      | cons _ _ => rfl
    simp [runScript, hsel, hnil]

/-- Witness for C9: the empty selection stops before the loop, and a
one-city run against an all-500 network stops with no data. -/
theorem claim_C9_witness :
    runScript [] 1 badNet 0 = .stoppedNoCities ∧
    runScript ["Riyadh"] 1 badNet 0 =
      .stoppedNoData (fetchLoop badNet (sliderValue days_back_slider 1) ["Riyadh"]) :=
  ⟨((claim_C9 [] 1 badNet 0).1 rfl).1,
   (claim_C9 ["Riyadh"] 1 badNet 0).2 (by simp) (by decide)⟩

/-- C10: the combined table of a rendered run is a permutation of the
concatenation of the non-empty per-city tables (no row dropped or
duplicated) and is in non-decreasing time order. -/
theorem claim_C10 (selected : List String) (daysChoice : Nat)
    (net : Request → Response) (detailIdx : Nat)
    (res : List (String × Request × FetchResult)) (df : List Row)
    (m : Metrics) (s : List SummaryRow) (ch : List Chart)
    (h : runScript selected daysChoice net detailIdx = .rendered res df m s ch) :
    df.Perm (all_dfs_of res).flatten ∧ List.Sorted timeLe df := by
  obtain ⟨h1, h2, -, -, -⟩ := runScript_rendered_inv h
  subst h1
  subst h2
  exact ⟨sortByTime_perm _, sortByTime_sorted _⟩

/-- Witness for C10: in the demo run the combined table is a permutation
of the fetched rows and time-sorted. -/
theorem claim_C10_witness :
    (df_of demoResults).Perm (all_dfs_of demoResults).flatten ∧
    List.Sorted timeLe (df_of demoResults) :=
  claim_C10 ["Riyadh"] 1 demoNet 0 demoResults (df_of demoResults)
    (metricsOf (df_of demoResults)) (summary_of (df_of demoResults))
    (renderCharts (df_of demoResults) (summary_of (df_of demoResults))
      (city_df_of (df_of demoResults) 0)) rfl
